import Mathlib

/-!
Shallow embedding of the ADB execution and input-validation layer of the
React-Native-MCP repository (src/tools/adb/...), together with theorems that
settle the frozen claims about it.

Modelling conventions:
* JavaScript strings are Lean `String`s restricted to ASCII behaviour
  (`toLowerCase`, `trim`, `\s` are modelled on the ASCII range).
* Thrown errors are modelled with `Except`: `.error` is a throw.
* Wall-clock fields (`duration_ms`) are omitted: they carry no logic.
-/

namespace RNMCP

/-- ASCII whitespace, as matched by JS `trim` and the regex class `\s`
(restricted to the ASCII range). -/
def wsChar (c : Char) : Bool :=
  c = ' ' || c = '\t' || c = '\n' || c = '\r' || c = '\x0b' || c = '\x0c'

/-- Trim whitespace from both ends of a character list. -/
def trimChars (l : List Char) : List Char :=
  ((l.dropWhile wsChar).reverse.dropWhile wsChar).reverse

/-- JS `String.prototype.trim` (ASCII model). -/
def jsTrim (s : String) : String := ⟨trimChars s.toList⟩

/-- Lower-case a single ASCII character (JS `toLowerCase` on ASCII). -/
def lowerChar (c : Char) : Char :=
  if 'A' ≤ c && c ≤ 'Z' then Char.ofNat (c.toNat + 32) else c

/-- JS `String.prototype.toLowerCase` (ASCII model). -/
def asciiLower (s : String) : String := ⟨s.toList.map lowerChar⟩

/-- Does `hay` start with `needle`? (first argument is the needle). -/
def listLeads : List Char → List Char → Bool
  | [], _ => true
  | _ :: _, [] => false
  | n :: ns, h :: hs => n = h && listLeads ns hs

/-- Does `hay` contain `needle` as a contiguous substring? -/
def listHasSub (needle : List Char) : List Char → Bool
  | [] => needle.isEmpty
  | h :: t => listLeads needle (h :: t) || listHasSub needle t

/-- JS `String.prototype.includes`. -/
def containsSub (hay needle : String) : Bool := listHasSub needle.toList hay.toList

/-- Is an `Except` value an error (a thrown exception)? -/
def exceptIsError {ε α : Type} : Except ε α → Bool
  | .error _ => true
  | .ok _ => false

/-! ## Input validators (src/tools/adb/utils/validators.ts) -/

/-- The character class of the dangerousChars regex used by `validateDeviceId`:
semicolon, ampersand, pipe, backtick, dollar, parentheses, braces, square
brackets, angle brackets, single quote, double quote, backslash. -/
def deviceIdDangerous (c : Char) : Bool :=
  c = ';' || c = '&' || c = '|' || c = '\x60' || c = '$' || c = '(' || c = ')' ||
  c = '\x7b' || c = '\x7d' || c = '[' || c = ']' || c = '<' || c = '>' ||
  c = '\x27' || c = '\x22' || c = '\\'

/-- The character class of the dangerousChars regex used by `validateFilePath`;
identical to `deviceIdDangerous` except that the backslash is NOT in it. -/
def filePathDangerous (c : Char) : Bool :=
  c = ';' || c = '&' || c = '|' || c = '\x60' || c = '$' || c = '(' || c = ')' ||
  c = '\x7b' || c = '\x7d' || c = '[' || c = ']' || c = '<' || c = '>' ||
  c = '\x27' || c = '\x22'

/-- `validateDeviceId` from validators.ts: rejects falsy input, trims, rejects
whitespace-only input and input containing a dangerous character; otherwise
returns the trimmed id. -/
def validateDeviceId (deviceId : String) : Except String String :=
  if deviceId = "" then
    .error "Device ID must be a non-empty string"
  else
    let trimmed := jsTrim deviceId
    if trimmed = "" then
      .error "Device ID cannot be empty or only whitespace"
    else if trimmed.toList.any deviceIdDangerous then
      .error "Device ID contains invalid characters"
    else
      .ok trimmed

/-- The test `/^[a-zA-Z]:/` (Windows drive-letter absolute path). -/
def driveLetterStart (l : List Char) : Bool :=
  match l with
  | a :: b :: _ => (('a' ≤ a && a ≤ 'z') || ('A' ≤ a && a ≤ 'Z')) && b = ':'
  | _ => false

/-- `validateFilePath` from validators.ts: rejects falsy input, trims, rejects
whitespace-only input, input containing a dangerous character (note: backslash
is not dangerous here), any `..` substring, and — when `allowAbsolute` is
false — leading `/` or a drive letter. -/
def validateFilePath (filePath : String) (allowAbsolute : Bool) : Except String String :=
  if filePath = "" then
    .error "File path must be a non-empty string"
  else
    let trimmed := jsTrim filePath
    if trimmed = "" then
      .error "File path cannot be empty or only whitespace"
    else if trimmed.toList.any filePathDangerous then
      .error "File path contains invalid characters"
    else if containsSub trimmed ".." then
      .error "File path cannot contain parent directory references (..)"
    else if !allowAbsolute &&
        ((match trimmed.toList with | '/' :: _ => true | _ => false) ||
          driveLetterStart trimmed.toList) then
      .error "Absolute paths are not allowed"
    else
      .ok trimmed

/-- The shell-metacharacter denylist named by the specification: semicolon,
ampersand, pipe, backtick, dollar, parentheses, braces, square brackets,
angle brackets, single quote, double quote, backslash. -/
def shellDenylist : List Char :=
  [';', '&', '|', '\x60', '$', '(', ')', '\x7b', '\x7d', '[', ']', '<', '>',
   '\x27', '\x22', '\\']

/-- Split a character list at every occurrence of the separator, keeping empty
pieces (JS `String.prototype.split` with a one-character separator). -/
def splitOnChar (sep : Char) : List Char → List (List Char)
  | [] => [[]]
  | c :: cs =>
    let r := splitOnChar sep cs
    if c = sep then [] :: r
    else
      match r with
      | [] => [[c]]
      | h :: t => (c :: h) :: t

/-- JS `String.prototype.split` with a one-character separator. -/
def jsSplit1 (sep : Char) (s : String) : List String :=
  (splitOnChar sep s.toList).map String.mk

/-- ASCII letter (regex class a-zA-Z). -/
def isAsciiAlpha (c : Char) : Bool :=
  ('a' ≤ c && c ≤ 'z') || ('A' ≤ c && c ≤ 'Z')

/-- ASCII digit (regex class 0-9). -/
def isAsciiDigit (c : Char) : Bool := '0' ≤ c && c ≤ '9'

/-- A character allowed after the first position of a package-name segment
(regex class a-zA-Z0-9_). -/
def isSegChar (c : Char) : Bool := isAsciiAlpha c || isAsciiDigit c || c = '_'

/-- One dot-separated segment of the package-name regex: a letter followed by
letters, digits or underscores. -/
def segMatch (s : String) : Bool :=
  match s.toList with
  | [] => false
  | c :: cs => isAsciiAlpha c && cs.all isSegChar

/-- The anchored packageNameRegex of validators.ts in segment form: since a
segment cannot contain a dot, the regex (letter word-chars, then one or more
groups of a dot followed by letter word-chars) matches exactly the strings
whose dot-split yields at least two segments, all matching `segMatch`. -/
def packageNameRegexTest (s : String) : Bool :=
  let segs := jsSplit1 '.' s
  decide (2 ≤ segs.length) && segs.all segMatch

/-- The fixed list of reserved Java keywords from validators.ts. -/
def javaKeywords : List String :=
  ["abstract", "assert", "boolean", "break", "byte", "case", "catch", "char",
   "class", "const", "continue", "default", "do", "double", "else", "enum",
   "extends", "final", "finally", "float", "for", "goto", "if", "implements",
   "import", "instanceof", "int", "interface", "long", "native", "new",
   "package", "private", "protected", "public", "return", "short", "static",
   "strictfp", "super", "switch", "synchronized", "this", "throw", "throws",
   "transient", "try", "void", "volatile", "while"]

/-- `validatePackageName` from validators.ts: rejects falsy input, then input
failing the package-name regex, then throws on the first dot-separated segment
whose lower-casing is a reserved Java keyword; otherwise returns the input
unchanged. -/
def validatePackageName (packageName : String) : Except String String :=
  if packageName = "" then
    .error "Package name must be a non-empty string"
  else if !packageNameRegexTest packageName then
    .error "Invalid package name format. Must follow reverse domain notation"
  else
    match (jsSplit1 '.' packageName).find?
        (fun seg => javaKeywords.contains (asciiLower seg)) with
    | some seg => .error ("Package name segment is a reserved Java keyword: " ++ seg)
    | none => .ok packageName

/-- An element on which the predicate is false survives `dropWhile`. -/
theorem mem_dropWhile_of_mem {α : Type} {p : α → Bool} {c : α} (hc : p c = false) :
    ∀ {l : List α}, c ∈ l → c ∈ l.dropWhile p := by
  intro l h
  induction l with
  | nil => cases h
  | cons a t ih =>
    rcases List.mem_cons.mp h with rfl | ht
    · simp [List.dropWhile, hc]
    · by_cases hpa : p a = true
      · simpa [List.dropWhile, hpa] using ih ht
      · rw [Bool.not_eq_true] at hpa
        simp only [List.dropWhile, hpa]
        exact List.mem_cons_of_mem a ht

/-- A non-whitespace character of a list survives trimming. -/
theorem mem_trimChars {c : Char} (hc : wsChar c = false) {l : List Char}
    (h : c ∈ l) : c ∈ trimChars l := by
  unfold trimChars
  simp only [List.mem_reverse]
  exact mem_dropWhile_of_mem hc
    (by simpa [List.mem_reverse] using mem_dropWhile_of_mem hc h)

/-- Claim C1 is false as stated: the backslash is in the shell-metacharacter
denylist and occurs in the input, yet `validateFilePath` returns the input
unchanged instead of throwing, because its dangerous-character regex omits
the backslash. -/
theorem claim_C1_counterexample :
    '\\' ∈ shellDenylist ∧ '\\' ∈ ("a\\b" : String).toList ∧
      validateFilePath "a\\b" true = Except.ok "a\\b" :=
  ⟨by decide, by decide, rfl⟩

/-- Claim C1 (amended): for every string containing a character of the
shell-metacharacter denylist, `validateDeviceId` throws `ValidationError`;
`validateFilePath` throws `ValidationError` for every string containing a
denylist character other than the backslash (its regex omits the backslash). -/
theorem claim_C1_amended :
    (∀ s : String, (∃ c, c ∈ s.toList ∧ c ∈ shellDenylist) →
      exceptIsError (validateDeviceId s) = true) ∧
    (∀ s : String, (∃ c, c ∈ s.toList ∧ c ∈ shellDenylist ∧ c ≠ '\\') →
      exceptIsError (validateFilePath s true) = true) := by
  constructor
  · rintro s ⟨c, hcs, hcd⟩
    have hdang : deviceIdDangerous c = true := by
      have hall : ∀ x ∈ shellDenylist, deviceIdDangerous x = true := by decide
      exact hall c hcd
    have hws : wsChar c = false := by
      have hall : ∀ x ∈ shellDenylist, wsChar x = false := by decide
      exact hall c hcd
    have hs : s ≠ "" := by
      rintro rfl
      simp only [String.toList] at hcs
      cases hcs
    have hmem : c ∈ (jsTrim s).toList := mem_trimChars hws hcs
    have hany : ∃ x ∈ (jsTrim s).data, deviceIdDangerous x = true := ⟨c, hmem, hdang⟩
    have htr : jsTrim s ≠ "" := by
      rintro h
      rw [h] at hmem
      cases hmem
    unfold validateDeviceId
    simp [hs, htr, hany, exceptIsError]
  · rintro s ⟨c, hcs, hcd, hcb⟩
    have hdang : filePathDangerous c = true := by
      have hall : ∀ x ∈ shellDenylist, x ≠ '\\' → filePathDangerous x = true := by decide
      exact hall c hcd hcb
    have hws : wsChar c = false := by
      have hall : ∀ x ∈ shellDenylist, wsChar x = false := by decide
      exact hall c hcd
    have hs : s ≠ "" := by
      rintro rfl
      simp only [String.toList] at hcs
      cases hcs
    have hmem : c ∈ (jsTrim s).toList := mem_trimChars hws hcs
    have hany : ∃ x ∈ (jsTrim s).data, filePathDangerous x = true := ⟨c, hmem, hdang⟩
    have htr : jsTrim s ≠ "" := by
      rintro h
      rw [h] at hmem
      cases hmem
    unfold validateFilePath
    simp [hs, htr, hany, exceptIsError]

/-- Claim C1 witness: both validators throw on a concrete string containing a
semicolon. -/
theorem claim_C1_witness :
    exceptIsError (validateDeviceId ";x") = true ∧
      exceptIsError (validateFilePath ";x" true) = true :=
  ⟨claim_C1_amended.1 ";x" ⟨';', by decide, by decide⟩,
   claim_C1_amended.2 ";x" ⟨';', by decide, by decide, by decide⟩⟩

/-- Claim C5 is false as stated: the string com.IF matches the package-name
regex and none of its segments is a member of the (all-lowercase) reserved
keyword list, yet `validatePackageName` throws, because the source lowercases
each segment before the keyword lookup. -/
theorem claim_C5_counterexample :
    packageNameRegexTest "com.IF" = true ∧
      (∀ seg ∈ jsSplit1 '.' "com.IF", seg ∉ javaKeywords) ∧
      exceptIsError (validatePackageName "com.IF") = true :=
  ⟨by decide, by decide, by decide⟩

/-- Claim C5 (amended): for every string matching the package-name regex none
of whose dot-separated segments LOWERCASES to a reserved Java keyword,
`validatePackageName` returns its input unchanged; for every string failing
the regex, or having a segment whose lower-casing is a reserved keyword, it
throws `ValidationError`. -/
theorem claim_C5_amended :
    (∀ s : String, packageNameRegexTest s = true →
      (∀ seg ∈ jsSplit1 '.' s, asciiLower seg ∉ javaKeywords) →
      validatePackageName s = Except.ok s) ∧
    (∀ s : String,
      (packageNameRegexTest s = false ∨
        ∃ seg ∈ jsSplit1 '.' s, asciiLower seg ∈ javaKeywords) →
      exceptIsError (validatePackageName s) = true) := by
  constructor
  · intro s hre hseg
    have hempty : packageNameRegexTest "" = false := by decide
    have hs : s ≠ "" := by
      rintro rfl
      rw [hempty] at hre
      cases hre
    have hf : (jsSplit1 '.' s).find?
        (fun seg => javaKeywords.contains (asciiLower seg)) = none := by
      rw [List.find?_eq_none]
      intro seg hsegmem
      have hnot := hseg seg hsegmem
      simpa using hnot
    unfold validatePackageName
    rw [if_neg hs]
    simp only [hre, Bool.not_true, Bool.false_eq_true, if_false, hf]
  · intro s h
    by_cases hs : s = ""
    · subst hs
      decide
    · rcases h with hre | ⟨seg, hmem, hkw⟩
      · unfold validatePackageName
        simp [hs, hre, exceptIsError]
      · by_cases hre : packageNameRegexTest s = true
        · have hsome : ((jsSplit1 '.' s).find?
              (fun seg => javaKeywords.contains (asciiLower seg))).isSome := by
            rw [List.find?_isSome]
            exact ⟨seg, hmem, by simpa using hkw⟩
          obtain ⟨v, hv⟩ := Option.isSome_iff_exists.mp hsome
          unfold validatePackageName
          rw [if_neg hs]
          simp only [hre, Bool.not_true, Bool.false_eq_true, if_false, hv, exceptIsError]
        · rw [Bool.not_eq_true] at hre
          unfold validatePackageName
          rw [if_neg hs]
          simp only [hre, Bool.not_false, if_true, exceptIsError]

/-- Claim C5 witness: a well-formed package name is returned unchanged, and a
package name with a reserved-keyword segment throws. -/
theorem claim_C5_witness :
    validatePackageName "com.example.app" = Except.ok "com.example.app" ∧
      exceptIsError (validatePackageName "com.if") = true :=
  ⟨claim_C5_amended.1 "com.example.app" (by decide) (by decide),
   claim_C5_amended.2 "com.if" (Or.inr ⟨"if", by decide, by decide⟩)⟩

/-! ## sanitizeForShell (validators.ts) -/

/-- Replace every occurrence of one character by a replacement string, left to
right (JS `String.prototype.replace` with a global one-character regex). -/
def rep1 (p : Char) (r : List Char) : List Char → List Char
  | [] => []
  | c :: cs => if c = p then r ++ rep1 p r cs else c :: rep1 p r cs

/-- The eight sequential global replacements performed by `sanitizeForShell`:
backslash, double quote, single quote, dollar, backtick, exclamation mark,
newline, carriage return — each replaced by a backslash-escaped form, applied
in the source order (backslash first). -/
def sanitizeChars (l : List Char) : List Char :=
  rep1 '\r' ['\\', 'r']
    (rep1 '\n' ['\\', 'n']
      (rep1 '!' ['\\', '!']
        (rep1 '\x60' ['\\', '\x60']
          (rep1 '$' ['\\', '$']
            (rep1 '\x27' ['\\', '\x27']
              (rep1 '\x22' ['\\', '\x22']
                (rep1 '\\' ['\\', '\\'] l)))))))

/-- `sanitizeForShell` from validators.ts. -/
def sanitizeForShell (input : String) : String := ⟨sanitizeChars input.toList⟩

/-- The per-character expansion that the eight replacements jointly perform
(later replacement passes never touch characters inserted by earlier ones). -/
def escChunk (c : Char) : List Char :=
  if c = '\\' then ['\\', '\\']
  else if c = '\x22' then ['\\', '\x22']
  else if c = '\x27' then ['\\', '\x27']
  else if c = '$' then ['\\', '$']
  else if c = '\x60' then ['\\', '\x60']
  else if c = '!' then ['\\', '!']
  else if c = '\n' then ['\\', 'n']
  else if c = '\r' then ['\\', 'r']
  else [c]

/-- The four characters of claim C9: dollar, backtick, double quote, single
quote. -/
def specialQ (c : Char) : Bool :=
  c = '$' || c = '\x60' || c = '\x22' || c = '\x27'

/-- Scan with the previous character: every special character must be
immediately preceded by a backslash. -/
def noUnescAux (prev : Char) : List Char → Bool
  | [] => true
  | c :: cs => (!specialQ c || prev = '\\') && noUnescAux c cs

/-- No special character appears unescaped: every occurrence of a character of
`specialQ` is immediately preceded by a backslash (a special character at
position zero counts as unescaped). -/
def noUnesc : List Char → Bool
  | [] => true
  | c :: cs => !specialQ c && noUnescAux c cs

/-- Single-character global replacement distributes over append. -/
theorem rep1_append (p : Char) (r : List Char) :
    ∀ xs ys : List Char, rep1 p r (xs ++ ys) = rep1 p r xs ++ rep1 p r ys := by
  intro xs ys
  induction xs with
  | nil => simp [rep1]
  | cons a t ih =>
    by_cases h : a = p
    · simp [rep1, h, ih]
    · simp [rep1, h, ih]

/-- The sanitizer distributes over append. -/
theorem sanitizeChars_append (xs ys : List Char) :
    sanitizeChars (xs ++ ys) = sanitizeChars xs ++ sanitizeChars ys := by
  simp only [sanitizeChars, rep1_append]

/-- The sanitizer processes one character at a time. -/
theorem sanitizeChars_cons (c : Char) (cs : List Char) :
    sanitizeChars (c :: cs) = sanitizeChars [c] ++ sanitizeChars cs :=
  sanitizeChars_append [c] cs

/-- On a single character the eight replacements produce `escChunk`. -/
theorem sanitizeChars_single (c : Char) : sanitizeChars [c] = escChunk c := by
  by_cases h1 : c = '\\'
  · subst h1; rfl
  by_cases h2 : c = '\x22'
  · subst h2; rfl
  by_cases h3 : c = '\x27'
  · subst h3; rfl
  by_cases h4 : c = '$'
  · subst h4; rfl
  by_cases h5 : c = '\x60'
  · subst h5; rfl
  by_cases h6 : c = '!'
  · subst h6; rfl
  by_cases h7 : c = '\n'
  · subst h7; rfl
  by_cases h8 : c = '\r'
  · subst h8; rfl
  simp [sanitizeChars, rep1, escChunk, h1, h2, h3, h4, h5, h6, h7, h8]

/-- Every special character in sanitized output has a backslash right before
it, whatever character precedes the output. -/
theorem noUnescAux_sanitize (l : List Char) :
    ∀ prev, noUnescAux prev (sanitizeChars l) = true := by
  induction l with
  | nil => intro _; rfl
  | cons c cs ih =>
    intro prev
    rw [sanitizeChars_cons, sanitizeChars_single]
    by_cases h1 : c = '\\'
    · subst h1; simp [escChunk, noUnescAux, specialQ, ih]
    by_cases h2 : c = '\x22'
    · subst h2; simp [escChunk, noUnescAux, specialQ, ih]
    by_cases h3 : c = '\x27'
    · subst h3; simp [escChunk, noUnescAux, specialQ, ih]
    by_cases h4 : c = '$'
    · subst h4; simp [escChunk, noUnescAux, specialQ, ih]
    by_cases h5 : c = '\x60'
    · subst h5; simp [escChunk, noUnescAux, specialQ, ih]
    by_cases h6 : c = '!'
    · subst h6; simp [escChunk, noUnescAux, specialQ, ih]
    by_cases h7 : c = '\n'
    · subst h7; simp [escChunk, noUnescAux, specialQ, ih]
    by_cases h8 : c = '\r'
    · subst h8; simp [escChunk, noUnescAux, specialQ, ih]
    simp [escChunk, h1, h2, h3, h4, h5, h6, h7, h8, noUnescAux, specialQ, ih]

/-- `noUnesc` is the scan with a harmless previous character. -/
theorem noUnesc_eq_aux (l : List Char) : noUnesc l = noUnescAux 'a' l := by
  cases l with
  | nil => rfl
  | cons c cs => simp [noUnesc, noUnescAux]

/-- Claim C9: for every input string containing a dollar, backtick, double
quote or single quote, every occurrence of those characters in the output of
`sanitizeForShell` is immediately preceded by a backslash — none of them
appears unescaped in the result. -/
theorem claim_C9 (s : String) (h : ∃ c ∈ s.toList, specialQ c = true) :
    noUnesc (sanitizeForShell s).toList = true := by
  have : (sanitizeForShell s).toList = sanitizeChars s.toList := rfl
  rw [this, noUnesc_eq_aux]
  exact noUnescAux_sanitize s.toList 'a'

/-- Claim C9 witness: a concrete string containing a dollar sign sanitizes to
output with no unescaped special character. -/
theorem claim_C9_witness :
    (∃ c ∈ ("echo $HOME" : String).toList, specialQ c = true) ∧
      noUnesc (sanitizeForShell "echo $HOME").toList = true :=
  ⟨by decide, claim_C9 "echo $HOME" (by decide)⟩

/-! ## ADB client execute (src/tools/adb/core/adb-client.ts) -/

/-- `validateTimeout` from validators.ts: rejects a negative timeout and a
timeout above the maximum (300000 ms at the call sites). The JS typeof-number
and integrality checks are outside the model (timeouts are `Int` here). -/
def validateTimeout (timeout maxTimeout : Int) : Except String Int :=
  if timeout < 0 then
    .error "Timeout cannot be negative"
  else if timeout > maxTimeout then
    .error "Timeout cannot exceed the maximum"
  else
    .ok timeout

/-- The result record of one subprocess invocation (`duration_ms`, a pure
wall-clock reading, is omitted). -/
structure ADBExecutionResult where
  success : Bool
  stdout : String
  stderr : String
  exit_code : Nat
deriving DecidableEq

/-- What the subprocess layer (promisified `exec`) reports back: either a
clean exit with captured output, or a failure carrying the `killed` flag, an
optional exit code, and optional captured output. -/
inductive RawExec where
  | ok (stdout stderr : String)
  | err (killed : Bool) (code : Option Nat) (stdout stderr : Option String)
deriving DecidableEq

/-- Everything `ADBClient.execute` can do: return a result or throw one of the
typed errors, each carrying the details the source attaches. -/
inductive ExecOutcome where
  | result (r : ADBExecutionResult)
  | timeoutError (command : String) (timeoutMs : Int)
  | deviceNotFoundError (deviceId : Option String) (stderr : String)
  | deviceOfflineError (deviceId : String) (stderr : String)
  | adbError (command : String) (exitCode : Nat) (stdout stderr : String)
  | validationError (msg : String)
deriving DecidableEq

/-- JS `Array.prototype.join` with a single space. -/
def joinSpace : List String → String
  | [] => ""
  | [x] => x
  | x :: xs => x ++ " " ++ joinSpace xs

/-- The argument vector built by execute: `-s` and the validated device id are
prepended when a device id is given. -/
def buildCommandArgs (validatedId : Option String) (args : List String) : List String :=
  match validatedId with
  | some v => "-s" :: v :: args
  | none => args

/-- Validate the optional device id exactly as execute does. -/
def validateOptDeviceId : Option String → Except String (Option String)
  | none => .ok none
  | some d => (validateDeviceId d).map some

/-- JS `execError.code || 1`: an absent exit code, and exit code zero, both
fall back to 1. -/
def jsCodeOrOne : Option Nat → Nat
  | some c => if c = 0 then 1 else c
  | none => 1

/-- The failed result record execute builds in its catch block. -/
def adbFailResult (code : Option Nat) (so se : Option String) : ADBExecutionResult :=
  ⟨false, jsTrim (so.getD ""), jsTrim (se.getD ""), jsCodeOrOne code⟩

/-- `ADBClient.execute`, modelled over the subprocess outcome `raw`: validates
the timeout, validates and prepends the device id, then on success returns the
trimmed outputs with exit code 0; on failure first checks the killed flag
(timeout), then matches the lower-cased captured stderr for the device-not-found
and device-offline substrings, then either throws a generic ADBError or — when
`throw_on_error` is false — returns the failed result. -/
def ADBClient_execute (raw : RawExec) (args : List String) (device_id : Option String)
    (timeout : Int) (throw_on_error : Bool) : ExecOutcome :=
  match validateTimeout timeout 300000 with
  | .error m => .validationError m
  | .ok validatedTimeout =>
    match validateOptDeviceId device_id with
    | .error m => .validationError m
    | .ok vid =>
      let commandArgs := buildCommandArgs vid args
      match raw with
      | .ok stdout stderr => .result ⟨true, jsTrim stdout, jsTrim stderr, 0⟩
      | .err killed code stdoutOpt stderrOpt =>
        if killed then
          .timeoutError (joinSpace commandArgs) validatedTimeout
        else
          let result := adbFailResult code stdoutOpt stderrOpt
          let stderrLower := asciiLower result.stderr
          if containsSub stderrLower "device not found" then
            .deviceNotFoundError device_id result.stderr
          else if containsSub stderrLower "device offline" then
            .deviceOfflineError (device_id.getD "unknown") result.stderr
          else if throw_on_error then
            .adbError (joinSpace commandArgs) result.exit_code result.stdout result.stderr
          else
            .result result

/-- Claim C2: when the subprocess exits non-zero or fails to spawn (not
killed by timeout), execute classifies the failure exactly once: stderr
containing the device-not-found substring throws `DeviceNotFoundError`;
otherwise the device-offline substring throws `DeviceOfflineError`; otherwise
with `throw_on_error` it throws a generic `ADBError` carrying the captured
stdout, stderr and exit code; otherwise it returns the failed result object. -/
theorem claim_C2 (args : List String) (device_id : Option String) (timeout : Int)
    (throw_on_error : Bool) (code : Option Nat) (so se : Option String)
    (vt : Int) (vid : Option String)
    (hT : validateTimeout timeout 300000 = .ok vt)
    (hD : validateOptDeviceId device_id = .ok vid) :
    (containsSub (asciiLower (adbFailResult code so se).stderr) "device not found" = true →
      ADBClient_execute (.err false code so se) args device_id timeout throw_on_error =
        .deviceNotFoundError device_id (adbFailResult code so se).stderr) ∧
    (containsSub (asciiLower (adbFailResult code so se).stderr) "device not found" = false →
      containsSub (asciiLower (adbFailResult code so se).stderr) "device offline" = true →
      ADBClient_execute (.err false code so se) args device_id timeout throw_on_error =
        .deviceOfflineError (device_id.getD "unknown") (adbFailResult code so se).stderr) ∧
    (containsSub (asciiLower (adbFailResult code so se).stderr) "device not found" = false →
      containsSub (asciiLower (adbFailResult code so se).stderr) "device offline" = false →
      throw_on_error = true →
      ADBClient_execute (.err false code so se) args device_id timeout throw_on_error =
        .adbError (joinSpace (buildCommandArgs vid args))
          (adbFailResult code so se).exit_code
          (adbFailResult code so se).stdout (adbFailResult code so se).stderr) ∧
    (containsSub (asciiLower (adbFailResult code so se).stderr) "device not found" = false →
      containsSub (asciiLower (adbFailResult code so se).stderr) "device offline" = false →
      throw_on_error = false →
      ADBClient_execute (.err false code so se) args device_id timeout throw_on_error =
        .result (adbFailResult code so se)) := by
  refine ⟨?_, ?_, ?_, ?_⟩
  · intro hnf
    simp [ADBClient_execute, hT, hD, hnf]
  · intro hnf hoff
    simp [ADBClient_execute, hT, hD, hnf, hoff]
  · intro hnf hoff hthrow
    simp [ADBClient_execute, hT, hD, hnf, hoff, hthrow]
  · intro hnf hoff hthrow
    simp [ADBClient_execute, hT, hD, hnf, hoff, hthrow]

/-- Claim C2 witness: a concrete failure with device-not-found stderr throws
`DeviceNotFoundError`. -/
theorem claim_C2_witness :
    ADBClient_execute (.err false (some 1) (some "") (some "error: device not found"))
        ["shell", "ls"] none 30000 true =
      .deviceNotFoundError none "error: device not found" :=
  (claim_C2 ["shell", "ls"] none 30000 true (some 1) (some "")
      (some "error: device not found") 30000 none rfl rfl).1 (by decide)

/-- Claim C3: whenever the subprocess layer reports the process was killed by
the timeout mechanism, execute throws `TimeoutError` carrying the joined
command and the validated timeout value, for every value of
`throw_on_error` — it never returns a result. -/
theorem claim_C3 (args : List String) (device_id : Option String) (timeout : Int)
    (throw_on_error : Bool) (code : Option Nat) (so se : Option String)
    (vt : Int) (vid : Option String)
    (hT : validateTimeout timeout 300000 = .ok vt)
    (hD : validateOptDeviceId device_id = .ok vid) :
    ADBClient_execute (.err true code so se) args device_id timeout throw_on_error =
      .timeoutError (joinSpace (buildCommandArgs vid args)) vt := by
  simp [ADBClient_execute, hT, hD]

/-- Claim C3 witness: a concrete killed-by-timeout failure throws
`TimeoutError` even with `throw_on_error` set to false. -/
theorem claim_C3_witness :
    ADBClient_execute (.err true none none none) ["devices"] none 30000 false =
      .timeoutError "devices" 30000 :=
  claim_C3 ["devices"] none 30000 false none none none 30000 none rfl rfl

/-- The argument vector of `waitForDevice`; `validateDeviceId` runs while
building it, outside the try block, so its `ValidationError` propagates. -/
def buildWaitArgs : Option String → Except String (List String)
  | some d => (validateDeviceId d).map (fun v => ["-s", v, "wait-for-device"])
  | none => .ok ["wait-for-device"]

/-- `ADBClient.waitForDevice`, modelled over the subprocess outcome: runs
execute with the wait-for-device arguments and default `throw_on_error`;
returns true on success, catches `TimeoutError` as false, and rethrows every
other thrown error unchanged. -/
def ADBClient_waitForDevice (raw : RawExec) (deviceId : Option String) (timeout : Int) :
    Except ExecOutcome Bool :=
  match buildWaitArgs deviceId with
  | .error m => .error (.validationError m)
  | .ok args =>
    match ADBClient_execute raw args none timeout true with
    | .result _ => .ok true
    | .timeoutError _ _ => .ok false
    | e => .error e

/-- Claim C8: `waitForDevice` returns true when the underlying execute of the
wait-for-device command succeeds, returns false exactly when execute throws
`TimeoutError`, and rethrows unchanged every error of any other type. -/
theorem claim_C8 (raw : RawExec) (deviceId : Option String) (timeout : Int)
    (args : List String) (hA : buildWaitArgs deviceId = .ok args) :
    (∀ r, ADBClient_execute raw args none timeout true = .result r →
      ADBClient_waitForDevice raw deviceId timeout = .ok true) ∧
    (∀ c t, ADBClient_execute raw args none timeout true = .timeoutError c t →
      ADBClient_waitForDevice raw deviceId timeout = .ok false) ∧
    (∀ e, ADBClient_execute raw args none timeout true = e →
      (∀ r, e ≠ .result r) → (∀ c t, e ≠ .timeoutError c t) →
      ADBClient_waitForDevice raw deviceId timeout = .error e) ∧
    (ADBClient_waitForDevice raw deviceId timeout = .ok false →
      ∃ c t, ADBClient_execute raw args none timeout true = .timeoutError c t) := by
  have hw : ADBClient_waitForDevice raw deviceId timeout =
      match ADBClient_execute raw args none timeout true with
      | .result _ => Except.ok true
      | .timeoutError _ _ => Except.ok false
      | e => Except.error e := by
    unfold ADBClient_waitForDevice
    rw [hA]
  refine ⟨?_, ?_, ?_, ?_⟩
  · intro r hr
    rw [hw, hr]
  · intro c t h
    rw [hw, h]
  · intro e he hnr hnt
    rw [hw, he]
    cases e with
    | result r => exact absurd rfl (hnr r)
    | timeoutError c t => exact absurd rfl (hnt c t)
    | deviceNotFoundError a b => rfl
    | deviceOfflineError a b => rfl
    | adbError a b c d => rfl
    | validationError m => rfl
  · intro hfalse
    rw [hw] at hfalse
    cases hE : ADBClient_execute raw args none timeout true with
    | result r => rw [hE] at hfalse; cases hfalse
    | timeoutError c t => exact ⟨c, t, rfl⟩
    | deviceNotFoundError a b => rw [hE] at hfalse; cases hfalse
    | deviceOfflineError a b => rw [hE] at hfalse; cases hfalse
    | adbError a b c d => rw [hE] at hfalse; cases hfalse
    | validationError m => rw [hE] at hfalse; cases hfalse

/-- Claim C8 witness: a concrete killed-by-timeout run makes `waitForDevice`
return false. -/
theorem claim_C8_witness :
    ADBClient_waitForDevice (RawExec.err true none none none) none 30000 =
      Except.ok false :=
  (claim_C8 (RawExec.err true none none none) none 30000 ["wait-for-device"]
      rfl).2.1 "wait-for-device" 30000 rfl

/-! ## listDevices parsing (adb-client.ts) -/

/-- The DeviceInfo record (types.ts): id and state always present, the other
fields optional. -/
structure DeviceInfo where
  id : String
  state : String
  product : Option String
  model : Option String
  device : Option String
  manufacturer : Option String
  android_version : Option String
  api_level : Option Int
  architecture : Option String
  brand : Option String
deriving DecidableEq

/-- A DeviceInfo with only id and state populated. -/
def baseDevice (id state : String) : DeviceInfo :=
  ⟨id, state, none, none, none, none, none, none, none, none⟩

/-- Split a character list at every character satisfying the predicate,
keeping empty pieces. -/
def splitOnPred (p : Char → Bool) : List Char → List (List Char)
  | [] => [[]]
  | c :: cs =>
    let r := splitOnPred p cs
    if p c then [] :: r
    else
      match r with
      | [] => [[c]]
      | h :: t => (c :: h) :: t

/-- JS `split` on the whitespace-run regex, applied to an already-trimmed
line: splitting at each whitespace character and discarding empty pieces
yields exactly the whitespace-separated tokens. -/
def splitWs (s : String) : List String :=
  ((splitOnPred wsChar s.toList).map String.mk).filter (fun t => t ≠ "")

/-- One step of the property loop of listDevices: a token of the form
key colon value sets the product, model or device field; every other token is
ignored (the check requires both key and value to be truthy). -/
def parseDeviceToken (d : DeviceInfo) (tok : String) : DeviceInfo :=
  match jsSplit1 ':' tok with
  | key :: value :: _ =>
    if key != "" && value != "" then
      if key = "product" then { d with product := some value }
      else if key = "model" then { d with model := some value }
      else if key = "device" then { d with device := some value }
      else d
    else d
  | _ => d

/-- One iteration of the line loop of `ADBClient.listDevices`: skip a blank
line and a line with fewer than two tokens, take the first whitespace token as
id and the second as state, skip a non-device state unless `includeOffline`,
and fill product, model and device from the remaining key-value tokens. -/
def listDevicesStep (includeOffline : Bool) (devices : List DeviceInfo) (line : String) :
    List DeviceInfo :=
  if jsTrim line = "" then devices
  else
    let parts := splitWs (jsTrim line)
    if parts.length < 2 then devices
    else
      let state := parts.getD 1 ""
      if !includeOffline && (state != "device") then devices
      else devices ++ [(parts.drop 2).foldl parseDeviceToken (baseDevice (parts.getD 0 "") state)]

/-- The parsing loop of `ADBClient.listDevices` over the stdout of
`devices -l`: split on newlines, skip the header line, run the line loop. -/
def listDevicesParse (stdout : String) (includeOffline : Bool) : List DeviceInfo :=
  ((jsSplit1 '\n' stdout).drop 1).foldl (listDevicesStep includeOffline) []

/-- `ADBClient.listDevices`: runs `devices -l` through execute with default
options and parses the trimmed stdout of the result. -/
def ADBClient_listDevices (raw : RawExec) (includeOffline : Bool) :
    Except ExecOutcome (List DeviceInfo) :=
  match ADBClient_execute raw ["devices", "-l"] none 30000 true with
  | .result r => .ok (listDevicesParse r.stdout includeOffline)
  | e => .error e

/-- The property loop never touches the state field. -/
theorem parseDeviceToken_state (d : DeviceInfo) (tok : String) :
    (parseDeviceToken d tok).state = d.state := by
  unfold parseDeviceToken
  repeat' split
  all_goals rfl

/-- Folding the property loop never touches the state field. -/
theorem foldl_parseDeviceToken_state (toks : List String) :
    ∀ d : DeviceInfo, (toks.foldl parseDeviceToken d).state = d.state := by
  induction toks with
  | nil => intro d; rfl
  | cons t ts ih =>
    intro d
    rw [List.foldl_cons, ih, parseDeviceToken_state]

/-- With `includeOffline = false`, the line loop only ever appends devices
whose state is the string device. -/
theorem listDevicesStep_state (line : String) (devices : List DeviceInfo) (d : DeviceInfo)
    (hd : d ∈ listDevicesStep false devices line) : d ∈ devices ∨ d.state = "device" := by
  unfold listDevicesStep at hd
  dsimp only at hd
  split at hd
  · exact Or.inl hd
  · split at hd
    · exact Or.inl hd
    · split at hd
      · exact Or.inl hd
      · rcases List.mem_append.mp hd with h | h
        · exact Or.inl h
        · rcases List.mem_singleton.mp h with rfl
          refine Or.inr ?_
          rw [foldl_parseDeviceToken_state]
          rename_i hcond
          have hstate : ((splitWs (jsTrim line)).getD 1 "") = "device" := by
            simp only [Bool.not_eq_true, Bool.and_eq_false_iff, Bool.not_false,
              Bool.not_eq_false] at hcond
            rcases hcond with h | h
            · cases h
            · simpa [bne_iff_ne] using h
          simpa [baseDevice] using hstate

/-- The whole fold with `includeOffline = false` produces only devices whose
state is the string device, provided the accumulator does. -/
theorem listDevicesParse_fold_state (lines : List String) :
    ∀ acc : List DeviceInfo, (∀ d ∈ acc, d.state = "device") →
      ∀ d ∈ lines.foldl (listDevicesStep false) acc, d.state = "device" := by
  induction lines with
  | nil => intro acc hacc; simpa using hacc
  | cons line rest ih =>
    intro acc hacc
    rw [List.foldl_cons]
    apply ih
    intro d hd
    rcases listDevicesStep_state line acc d hd with h | h
    · exact hacc d h
    · exact h

/-- Claim C4: listDevices splits stdout on newlines, skips the header and
blank lines, takes the first token as id and the second as state, records
product, model and device from key-value tokens, and excludes non-device
states unless includeOffline; on the parser input of the claim it returns
exactly one device with includeOffline false and exactly two with true. -/
theorem claim_C4 :
    listDevicesParse
        "List of devices attached\nABC123 device product:x model:y device:z\nDEF456 offline\n"
        false =
      [⟨"ABC123", "device", some "x", some "y", some "z",
        none, none, none, none, none⟩] ∧
    listDevicesParse
        "List of devices attached\nABC123 device product:x model:y device:z\nDEF456 offline\n"
        true =
      [⟨"ABC123", "device", some "x", some "y", some "z",
        none, none, none, none, none⟩,
       ⟨"DEF456", "offline", none, none, none, none, none, none, none, none⟩] ∧
    ∀ s : String, (listDevicesParse s false).all (fun d => d.state == "device") = true := by
  refine ⟨by decide, by decide, ?_⟩
  intro s
  rw [List.all_eq_true]
  intro d hd
  have hst := listDevicesParse_fold_state ((jsSplit1 '\n' s).drop 1) []
    (fun d h => absurd h (List.not_mem_nil d)) d hd
  simpa using hst

/-! ## getDeviceInfo (adb-client.ts) -/

/-- JS `parseInt(value, 10)`: skip leading whitespace, optional sign, read a
digit prefix; no digits is NaN, modelled as none. -/
def parseIntJS (s : String) : Option Int :=
  let digitsPrefix : List Char → Option Nat := fun l =>
    let ds := l.takeWhile isAsciiDigit
    if ds.isEmpty then none
    else some (ds.foldl (fun a c => a * 10 + (c.toNat - 48)) 0)
  match s.toList.dropWhile wsChar with
  | '-' :: rest => (digitsPrefix rest).map (fun n => -(n : Int))
  | '+' :: rest => (digitsPrefix rest).map (fun n => (n : Int))
  | t => (digitsPrefix t).map (fun n => (n : Int))

/-- What one getprop lookup of getDeviceInfo contributes: thrown errors are
swallowed by the per-property catch; a returned result contributes its trimmed
stdout only when success is set and stdout is non-empty. -/
def getpropValue : ExecOutcome → Option String
  | .result r => if r.success && (r.stdout != "") then some (jsTrim r.stdout) else none
  | _ => none

/-- The device id `getDeviceInfo` settles on: the validated explicit id, or
the id of the first listed device, or a thrown `DeviceNotFoundError` when the
device list is empty. -/
def resolveInfoId (deviceIdArg : Option String) (devices : List DeviceInfo) :
    Except String String :=
  match deviceIdArg with
  | none =>
    match devices with
    | [] => .error "DeviceNotFoundError"
    | d :: _ => .ok d.id
  | some d => validateDeviceId d

/-- `ADBClient.getDeviceInfo`, modelled over the listed devices and an oracle
giving the execute outcome of each getprop query: builds a DeviceInfo with the
state field hard-coded to the string device and the eight property fields
filled from the lookups. -/
def ADBClient_getDeviceInfo (deviceIdArg : Option String) (devices : List DeviceInfo)
    (propExec : String → ExecOutcome) : Except String DeviceInfo :=
  match resolveInfoId deviceIdArg devices with
  | .error m => .error m
  | .ok deviceId =>
    .ok
      { id := deviceId
        state := "device"
        product := getpropValue (propExec "ro.product.name")
        model := getpropValue (propExec "ro.product.model")
        device := getpropValue (propExec "ro.product.device")
        manufacturer := getpropValue (propExec "ro.product.manufacturer")
        android_version := getpropValue (propExec "ro.build.version.release")
        api_level := (getpropValue (propExec "ro.build.version.sdk")).bind parseIntJS
        architecture := getpropValue (propExec "ro.product.cpu.abi")
        brand := getpropValue (propExec "ro.product.brand") }

/-- Claim C10: every DeviceInfo returned by getDeviceInfo has state equal to
the constant string device, whatever the explicit or first-listed device id,
the listed devices and the outcomes of the eight property lookups — the
actual device state is never queried or reflected. -/
theorem claim_C10 (deviceIdArg : Option String) (devices : List DeviceInfo)
    (propExec : String → ExecOutcome) (d : DeviceInfo)
    (h : ADBClient_getDeviceInfo deviceIdArg devices propExec = .ok d) :
    d.state = "device" := by
  unfold ADBClient_getDeviceInfo at h
  cases hr : resolveInfoId deviceIdArg devices with
  | error m => rw [hr] at h; cases h
  | ok i =>
    rw [hr] at h
    injection h with h2
    subst h2
    rfl

/-- Claim C10 witness: with an offline first-listed device and every property
lookup failing, getDeviceInfo still reports state device. -/
theorem claim_C10_witness :
    (⟨"DEF456", "device", none, none, none, none, none, none, none, none⟩ :
      DeviceInfo).state = "device" :=
  claim_C10 none [baseDevice "DEF456" "offline"]
    (fun _ => ExecOutcome.adbError "" 1 "" "")
    ⟨"DEF456", "device", none, none, none, none, none, none, none, none⟩ rfl

/-! ## connectDevice (src/tools/adb/device/connect-device.ts) -/

/-- `validatePort` from validators.ts: the port must be between 1 and 65535
(the JS typeof-number and integrality checks are outside the model). -/
def validatePort (port : Int) : Except String Int :=
  if port < 1 ∨ port > 65535 then
    .error "Port must be between 1 and 65535"
  else
    .ok port

/-- ASCII letter or digit. -/
def isAlnum (c : Char) : Bool := isAsciiAlpha c || isAsciiDigit c

/-- One group of the IPv4 alternative of the host regex: one to three
digits. -/
def ipLabelOK (s : String) : Bool :=
  let l := s.toList
  decide (1 ≤ l.length) && decide (l.length ≤ 3) && l.all isAsciiDigit

/-- The IPv4 alternative of the host regex: exactly four dot-separated groups
of one to three digits. -/
def hostIsIPv4 (host : String) : Bool :=
  match jsSplit1 '.' host with
  | [a, b, c, d] => ipLabelOK a && ipLabelOK b && ipLabelOK c && ipLabelOK d
  | _ => false

/-- One label of the hostname alternative of the host regex: non-empty,
alphanumeric first and last characters, alphanumeric or hyphen inside. -/
def hostLabelOK (s : String) : Bool :=
  match s.toList, s.toList.reverse with
  | c :: _, d :: _ =>
    isAlnum c && isAlnum d && s.toList.all (fun x => isAlnum x || x = '-')
  | _, _ => false

/-- The anchored hostRegex of connect-device.ts in segment form: either an
IPv4-shaped dotted quad, or one or more dot-separated hostname labels (a
label cannot contain a dot, so the alternation splits on dots exactly). -/
def hostRegexTest (host : String) : Bool :=
  hostIsIPv4 host || (jsSplit1 '.' host).all hostLabelOK

/-- Decimal digit character. -/
def digitChar (n : Nat) : Char := Char.ofNat (48 + n)

/-- Decimal digits of a natural number, with structural fuel so that the
kernel can evaluate it. -/
def natToStrAux : Nat → Nat → List Char
  | 0, _ => []
  | fuel + 1, n =>
    if n < 10 then [digitChar n]
    else natToStrAux fuel (n / 10) ++ [digitChar (n % 10)]

/-- Decimal rendering of a natural number. -/
def natToStr (n : Nat) : String := ⟨natToStrAux (n + 1) n⟩

/-- Decimal rendering of an integer (JS template-string interpolation of a
number). -/
def intToStr : Int → String
  | .ofNat n => natToStr n
  | .negSucc n => "-" ++ natToStr (n + 1)

/-- The result object connectDevice resolves with. Optional fields model JS
fields that are present on some branches and absent (undefined) on others. -/
structure ConnectResult where
  success : Bool
  device_id : String
  message : String
  connection_string : String
  was_already_connected : Option Bool
  instructions : Option (List String)
deriving DecidableEq

/-- Errors connectDevice can throw: its own ADBError branches, a
ValidationError from validatePort, or an error thrown by execute. -/
inductive ConnectError where
  | adbError (msg : String)
  | validationError (msg : String)
  | execThrown (e : ExecOutcome)
deriving DecidableEq

/-- The instructions list of the fresh-connection branch. -/
def connectInstructions (connectionString : String) : List String :=
  ["Device is now connected wirelessly",
   "You can disconnect USB cable if still connected",
   "To disconnect: use ADB with disconnect command targeting " ++ connectionString]

/-- `connectDevice`, modelled over the subprocess outcome: validates the port
and the host, runs `connect host:port` through execute with
`throw_on_error = false`, then branches on the lower-cased stdout: first the
already-connected check, then connected-to, then the two failure checks, then
the unexpected-response throw. -/
def connectDevice (raw : RawExec) (host : String) (port : Int) (timeout : Int) :
    Except ConnectError ConnectResult :=
  match validatePort port with
  | .error m => .error (.validationError m)
  | .ok _ =>
    if !hostRegexTest host then
      .error (.adbError "Invalid host format. Must be an IP address or hostname")
    else
      let connectionString := host ++ ":" ++ intToStr port
      match ADBClient_execute raw ["connect", connectionString] none timeout false with
      | .result result =>
        let output := asciiLower result.stdout
        if containsSub output "already connected" then
          .ok ⟨true, connectionString, "Already connected to " ++ connectionString,
               connectionString, some true, none⟩
        else if containsSub output "connected to" then
          .ok ⟨true, connectionString, "Successfully connected to " ++ connectionString,
               connectionString, none, some (connectInstructions connectionString)⟩
        else if containsSub output "failed to connect" || containsSub output "cannot connect" then
          .error (.adbError ("Failed to connect to " ++ connectionString ++
            ". Ensure device has wireless debugging enabled"))
        else
          .error (.adbError "Unexpected response from ADB connect command")
      | e => .error (.execThrown e)

/-- Claim C7 is false as stated: a stdout that contains the substring
connected-to and does NOT contain the lowercase substring already-connected
can still resolve with was_already_connected true, because the source matches
the substrings against the lower-cased stdout. -/
theorem claim_C7_counterexample :
    containsSub "ALREADY connected to 192.168.1.100:5555" "connected to" = true ∧
    containsSub "ALREADY connected to 192.168.1.100:5555" "already connected" = false ∧
    connectDevice (.ok "ALREADY connected to 192.168.1.100:5555" "")
        "192.168.1.100" 5555 10000 =
      .ok ⟨true, "192.168.1.100:5555", "Already connected to 192.168.1.100:5555",
           "192.168.1.100:5555", some true, none⟩ :=
  ⟨by decide, by decide, rfl⟩

/-- Claim C7 (amended): with the substring checks read on the lower-cased
stdout as the source performs them — when the lower-cased stdout of the
connect subprocess contains already-connected, connectDevice resolves with
success true, was_already_connected true, connection_string host:port and no
instructions field; when it contains connected-to but not already-connected,
it resolves with success true, connection_string host:port and
was_already_connected absent. -/
theorem claim_C7_amended (host : String) (port : Int) (timeout : Int)
    (stdout stderr : String)
    (hport : validatePort port = .ok port)
    (hhost : hostRegexTest host = true)
    (htime : validateTimeout timeout 300000 = .ok timeout) :
    (containsSub (asciiLower (jsTrim stdout)) "already connected" = true →
      connectDevice (.ok stdout stderr) host port timeout =
        .ok ⟨true, host ++ ":" ++ intToStr port,
             "Already connected to " ++ (host ++ ":" ++ intToStr port),
             host ++ ":" ++ intToStr port, some true, none⟩) ∧
    (containsSub (asciiLower (jsTrim stdout)) "already connected" = false →
      containsSub (asciiLower (jsTrim stdout)) "connected to" = true →
      connectDevice (.ok stdout stderr) host port timeout =
        .ok ⟨true, host ++ ":" ++ intToStr port,
             "Successfully connected to " ++ (host ++ ":" ++ intToStr port),
             host ++ ":" ++ intToStr port, none,
             some (connectInstructions (host ++ ":" ++ intToStr port))⟩) := by
  constructor
  · intro halready
    simp [connectDevice, hport, hhost, ADBClient_execute, htime, validateOptDeviceId, halready]
  · intro hnot hconn
    simp [connectDevice, hport, hhost, ADBClient_execute, htime, validateOptDeviceId, hnot, hconn]

/-- Claim C7 witness: a concrete fresh connection resolves without the
was_already_connected field, and a concrete already-connected output resolves
with it set and without instructions. -/
theorem claim_C7_witness :
    connectDevice (.ok "connected to 192.168.1.100:5555" "") "192.168.1.100" 5555 10000 =
        .ok ⟨true, "192.168.1.100:5555", "Successfully connected to 192.168.1.100:5555",
             "192.168.1.100:5555", none, some (connectInstructions "192.168.1.100:5555")⟩ ∧
    connectDevice (.ok "already connected to 192.168.1.100:5555" "") "192.168.1.100" 5555 10000 =
        .ok ⟨true, "192.168.1.100:5555", "Already connected to 192.168.1.100:5555",
             "192.168.1.100:5555", some true, none⟩ :=
  ⟨(claim_C7_amended "192.168.1.100" 5555 10000 "connected to 192.168.1.100:5555" ""
      rfl (by decide) rfl).2 (by decide) (by decide),
   (claim_C7_amended "192.168.1.100" 5555 10000 "already connected to 192.168.1.100:5555" ""
      rfl (by decide) rfl).1 (by decide)⟩

/-! ## ADB path resolver (src/tools/adb/utils/path-resolver.ts) -/

/-- The ambient process state the resolver consults: the trimmed output of the
which/where lookup (none when the command failed), the executability check
(existsSync plus running the version subcommand), the environment variables,
and the platform string. -/
structure ResolverEnv where
  pathLookup : Option String
  isExec : String → Bool
  androidHome : Option String
  androidSdkRoot : Option String
  platform : String
  home : Option String
  programFiles : Option String
  programFilesX86 : Option String
  localAppData : Option String

/-- JS truthiness for an optional environment string: undefined and the empty
string are both falsy. -/
def truthy : Option String → Option String
  | some s => if s = "" then none else some s
  | none => none

/-- `path.join` of two pieces, modelled as separator concatenation (the
normalization JS performs does not matter to the resolver claims). -/
def jsJoin (a b : String) : String := a ++ "/" ++ b

/-- `findInPath`: the which/where output, when non-empty and executable. -/
def findInPath (e : ResolverEnv) : Option String :=
  match e.pathLookup with
  | none => none
  | some result => if result != "" && e.isExec result then some result else none

/-- `findInAndroidHome`: ANDROID_HOME falling back to ANDROID_SDK_ROOT, then
the first executable of the two platform-tools candidates. -/
def findInAndroidHome (e : ResolverEnv) : Option String :=
  match truthy e.androidHome <|> truthy e.androidSdkRoot with
  | none => none
  | some androidHome =>
    [jsJoin androidHome "platform-tools/adb",
     jsJoin androidHome "platform-tools/adb.exe"].find? e.isExec

/-- The fixed platform-specific list of conventional install paths. -/
def commonPathsFor (e : ResolverEnv) : List String :=
  if e.platform = "darwin" then
    ["/usr/local/bin/adb",
     jsJoin ((truthy e.home).getD "") "Library/Android/sdk/platform-tools/adb",
     "/opt/homebrew/bin/adb"]
  else if e.platform = "linux" then
    ["/usr/bin/adb", "/usr/local/bin/adb",
     jsJoin ((truthy e.home).getD "") "Android/Sdk/platform-tools/adb",
     "/opt/android-sdk/platform-tools/adb"]
  else if e.platform = "win32" then
    [jsJoin ((truthy e.programFiles).getD "C:\\Program Files")
       "Android\\Android Studio\\platform-tools\\adb.exe",
     jsJoin ((truthy e.programFilesX86).getD "C:\\Program Files (x86)")
       "Android\\Android Studio\\platform-tools\\adb.exe",
     jsJoin ((truthy e.localAppData).getD "") "Android\\Sdk\\platform-tools\\adb.exe",
     "C:\\adb\\adb.exe"]
  else []

/-- `findInCommonLocations`: the first executable conventional path. -/
def findInCommonLocations (e : ResolverEnv) : Option String :=
  (commonPathsFor e).find? e.isExec

/-- The message of the ADBError thrown when no candidate is executable. -/
def adbNotFoundMsg : String := "ADB executable not found"

/-- `resolveADBPath`, returning the thrown-or-returned path together with the
module-level cache as it stands afterwards: the truthy cached path short
circuits; otherwise the PATH lookup, then the SDK environment variables, then
the common locations are tried in order, the first hit being returned and
cached; with no hit an ADBError is thrown and the cache is left unchanged. -/
def resolveADBPath (cachedADBPath : Option String) (e : ResolverEnv) :
    Except String String × Option String :=
  match truthy cachedADBPath with
  | some p => (.ok p, some p)
  | none =>
    match findInPath e with
    | some adbPath => (.ok adbPath, some adbPath)
    | none =>
      match findInAndroidHome e with
      | some adbPath => (.ok adbPath, some adbPath)
      | none =>
        match findInCommonLocations e with
        | some adbPath => (.ok adbPath, some adbPath)
        | none => (.error adbNotFoundMsg, cachedADBPath)

/-- A path found in PATH passed the executability check. -/
theorem findInPath_isExec (e : ResolverEnv) (p : String)
    (h : findInPath e = some p) : e.isExec p = true := by
  unfold findInPath at h
  split at h
  next => cases h
  next r =>
    split at h
    next hcond =>
      injection h with hq
      subst hq
      simp only [Bool.and_eq_true] at hcond
      exact hcond.2
    next => cases h

/-- A path found under the SDK root passed the executability check. -/
theorem findInAndroidHome_isExec (e : ResolverEnv) (p : String)
    (h : findInAndroidHome e = some p) : e.isExec p = true := by
  unfold findInAndroidHome at h
  cases hah : (truthy e.androidHome <|> truthy e.androidSdkRoot) with
  | none => rw [hah] at h; cases h
  | some home => rw [hah] at h; exact List.find?_some h

/-- A path found among the common locations passed the executability check. -/
theorem findInCommonLocations_isExec (e : ResolverEnv) (p : String)
    (h : findInCommonLocations e = some p) : e.isExec p = true := by
  unfold findInCommonLocations at h
  exact List.find?_some h

/-- Claim C6: resolveADBPath returns the in-process cached path when one was
previously resolved; otherwise it tries the PATH lookup, then the SDK
environment variables, then the fixed platform-specific locations, in order,
returning and caching the first candidate passing the executability check;
and it throws ADBError when no candidate is executable. -/
theorem claim_C6 :
    (∀ (e : ResolverEnv) (p : String), p ≠ "" →
      resolveADBPath (some p) e = (Except.ok p, some p)) ∧
    (∀ e : ResolverEnv,
      resolveADBPath none e =
        (match findInPath e <|> findInAndroidHome e <|> findInCommonLocations e with
         | some p => (Except.ok p, some p)
         | none => (Except.error adbNotFoundMsg, none))) ∧
    (∀ (e : ResolverEnv) (p : String) (c : Option String),
      resolveADBPath none e = (Except.ok p, c) →
        e.isExec p = true ∧ c = some p) := by
  have hred : ∀ e : ResolverEnv,
      resolveADBPath none e =
        (match findInPath e with
         | some q => (Except.ok q, some q)
         | none =>
           match findInAndroidHome e with
           | some q => (Except.ok q, some q)
           | none =>
             match findInCommonLocations e with
             | some q => (Except.ok q, some q)
             | none => (Except.error adbNotFoundMsg, none)) := fun _ => rfl
  refine ⟨?_, ?_, ?_⟩
  · intro e p hp
    unfold resolveADBPath
    simp [truthy, hp]
  · intro e
    rw [hred]
    cases h1 : findInPath e with
    | some q => simp
    | none =>
      cases h2 : findInAndroidHome e with
      | some q => simp
      | none =>
        cases h3 : findInCommonLocations e with
        | some q => simp
        | none => simp
  · intro e p c h
    rw [hred] at h
    cases h1 : findInPath e with
    | some q =>
      rw [h1] at h
      rw [Prod.mk.injEq] at h
      obtain ⟨hA, hB⟩ := h
      injection hA with hq
      constructor
      · rw [← hq]; exact findInPath_isExec e q h1
      · rw [← hB, hq]
    | none =>
      rw [h1] at h
      cases h2 : findInAndroidHome e with
      | some q =>
        rw [h2] at h
        rw [Prod.mk.injEq] at h
        obtain ⟨hA, hB⟩ := h
        injection hA with hq
        constructor
        · rw [← hq]; exact findInAndroidHome_isExec e q h2
        · rw [← hB, hq]
      | none =>
        rw [h2] at h
        cases h3 : findInCommonLocations e with
        | some q =>
          rw [h3] at h
          rw [Prod.mk.injEq] at h
          obtain ⟨hA, hB⟩ := h
          injection hA with hq
          constructor
          · rw [← hq]; exact findInCommonLocations_isExec e q h3
          · rw [← hB, hq]
        | none =>
          rw [h3] at h
          rw [Prod.mk.injEq] at h
          cases h.1

/-- A concrete resolver environment: nothing in PATH, no SDK variables, Linux,
with exactly the first conventional location executable. -/
def envW : ResolverEnv :=
  ⟨none, (fun s => s == "/usr/bin/adb"), none, none, "linux", none, none, none, none⟩

/-- Claim C6 witness: the cached path short-circuits, and a concrete
resolution from the common locations passed the executability check and was
cached. -/
theorem claim_C6_witness :
    resolveADBPath (some "/opt/adb") envW = (Except.ok "/opt/adb", some "/opt/adb") ∧
      (envW.isExec "/usr/bin/adb" = true ∧
        (some "/usr/bin/adb" : Option String) = some "/usr/bin/adb") :=
  ⟨claim_C6.1 envW "/opt/adb" (by decide),
   claim_C6.2.2 envW "/usr/bin/adb" (some "/usr/bin/adb") rfl⟩

end RNMCP
